import Mathlib

/-!
Verification development for the sumo-k8 multi-tenant job controller.

The definitions below are a shallow embedding of the Python sources:
bytes are `Nat` values below 256, strings of base64 characters are lists
of ASCII codes, and the Kubernetes API is modelled by explicit oracles
and emitted-operation lists.
-/

namespace SumoK8

/-! ### Base64 (`base64.b64encode` / shell `base64 -d`), over ASCII codes -/

/-- The standard base64 alphabet as a map from sextet value to ASCII code. -/
def b64tbl (x : Nat) : Nat :=
  if x < 26 then 65 + x
  else if x < 52 then 97 + (x - 26)
  else if x < 62 then 48 + (x - 52)
  else if x = 62 then 43
  else 47

/-- Inverse of the base64 alphabet: ASCII code back to sextet value. -/
def b64inv (c : Nat) : Nat :=
  if 65 ≤ c ∧ c ≤ 90 then c - 65
  else if 97 ≤ c ∧ c ≤ 122 then 26 + (c - 97)
  else if 48 ≤ c ∧ c ≤ 57 then 52 + (c - 48)
  else if c = 43 then 62
  else if c = 47 then 63
  else 0

/-- Standard base64 encoding of a byte list, producing the ASCII codes of
the encoded text, `=` (61) used for padding, as `base64.b64encode` does. -/
def b64encode : List Nat → List Nat
  | [] => []
  | [a] => [b64tbl (a / 4), b64tbl (a % 4 * 16), 61, 61]
  | [a, b] => [b64tbl (a / 4), b64tbl (a % 4 * 16 + b / 16), b64tbl (b % 16 * 4), 61]
  | a :: b :: c :: rest =>
      b64tbl (a / 4) :: b64tbl (a % 4 * 16 + b / 16) :: b64tbl (b % 16 * 4 + c / 64)
        :: b64tbl (c % 64) :: b64encode rest

/-- Standard base64 decoding (as the entry-point script's `base64 -d`),
from ASCII codes back to bytes; ill-formed tails decode to `[]`. -/
def b64decode : List Nat → List Nat
  | c1 :: c2 :: c3 :: c4 :: rest =>
      if c3 = 61 then [b64inv c1 * 4 + b64inv c2 / 16]
      else if c4 = 61 then
        [b64inv c1 * 4 + b64inv c2 / 16, b64inv c2 % 16 * 16 + b64inv c3 / 4]
      else
        (b64inv c1 * 4 + b64inv c2 / 16)
          :: (b64inv c2 % 16 * 16 + b64inv c3 / 4)
          :: (b64inv c3 % 4 * 64 + b64inv c4)
          :: b64decode rest
  | _ => []

/-! ### Payload sharding (`create_k8s_job`, src/src/jobs.py) -/

/-- `max_chunk_size = 900000  # Leave margin under 1MB limit`. -/
def max_chunk_size : Nat := 900000

/-- `num_chunks = (len(zip_b64) + max_chunk_size - 1) // max_chunk_size`. -/
def num_chunks (len : Nat) : Nat := (len + max_chunk_size - 1) / max_chunk_size

/-- The slice `zip_b64[i*max_chunk_size : min((i+1)*max_chunk_size, len(zip_b64))]`. -/
def chunk_data (zip_b64 : List Nat) (i : Nat) : List Nat :=
  (zip_b64.drop (i * max_chunk_size)).take max_chunk_size

/-- `chunk_name = f"sumo-\x7bjob_id[:8]\x7d-chunk\x7bi\x7d"`. -/
def chunk_name (shortId : String) (i : Nat) : String :=
  "sumo-" ++ shortId ++ "-chunk" ++ toString i

/-- One orchestrator side effect issued by the submission pipeline. -/
inductive K8sOp
  | createConfigMap (cmName : String) (blob : List Nat)
  | deleteConfigMap (cmName : String)
  | createJob (jobName : String)
deriving DecidableEq

/-- The chunk-creation loop of `create_k8s_job` (src/src/jobs.py 86-112):
chunks are created in index order; `created` accumulates `configmap_chunks`;
on the first creation failure every already-created chunk is deleted and
HTTP 500 is raised. `ok name` says whether the orchestrator accepts the
creation of the object of that name. -/
def createChunksFrom (ok : String → Bool) (shortId : String) (zip_b64 : List Nat)
    (i : Nat) (created : List String) : List K8sOp × Except Nat (List String) :=
  if _h : i < num_chunks zip_b64.length then
    let cm := chunk_name shortId i
    if ok cm then
      let rest := createChunksFrom ok shortId zip_b64 (i + 1) (created ++ [cm])
      (K8sOp.createConfigMap cm (chunk_data zip_b64 i) :: rest.1, rest.2)
    else
      (created.map K8sOp.deleteConfigMap, Except.error 500)
  else
    ([], Except.ok created)
termination_by num_chunks zip_b64.length - i

/-- Orchestrator side effects of `create_k8s_job` (src/src/jobs.py 72-317):
sharded ConfigMap path above `max_chunk_size`, single-ConfigMap path below,
then emission of the `sim-<shortId>` workload; a workload-creation failure
schedules deletion of the job's `sumo-` ConfigMaps and raises 500. -/
def create_k8s_job (ok : String → Bool) (shortId : String) (zip_b64 : List Nat) :
    List K8sOp × Except Nat Unit :=
  if max_chunk_size < zip_b64.length then
    match createChunksFrom ok shortId zip_b64 0 [] with
    | (ops, Except.error e) => (ops, Except.error e)
    | (ops, Except.ok chunks) =>
        if ok ("sim-" ++ shortId) then
          (ops ++ [K8sOp.createJob ("sim-" ++ shortId)], Except.ok ())
        else
          (ops ++ chunks.map K8sOp.deleteConfigMap, Except.error 500)
  else
    let cm := "sumo-" ++ shortId
    if ok cm then
      if ok ("sim-" ++ shortId) then
        ([K8sOp.createConfigMap cm zip_b64, K8sOp.createJob ("sim-" ++ shortId)],
          Except.ok ())
      else
        ([K8sOp.createConfigMap cm zip_b64, K8sOp.deleteConfigMap cm], Except.error 500)
    else
      ([], Except.error 500)

/-! ### Admission checks (src/src/jobs.py) -/

/-- `validate_resource_request` (src/src/jobs.py 19-31): Python ints, HTTP
400 with the interpolated detail string on the first failing bound. -/
def validate_resource_request (cpu_request memory_gi maxCpu maxMem : Int) :
    Except (Nat × String) Unit :=
  if cpu_request ≤ 0 ∨ maxCpu < cpu_request then
    Except.error (400, "CPU request (" ++ toString cpu_request
      ++ ") must be between 1 and " ++ toString maxCpu)
  else if memory_gi ≤ 0 ∨ maxMem < memory_gi then
    Except.error (400, "Memory request (" ++ toString memory_gi
      ++ "Gi) must be between 1 and " ++ toString maxMem ++ "Gi")
  else Except.ok ()

/-- The size checks at the head of `validate_and_extract_zip`
(src/src/jobs.py 33-43): empty payloads are rejected with 400, then
`zip_size_mb = len / 1024 / 1024` is compared against `MAX_FILE_SIZE_MB`
and an oversized payload is rejected with 413. Python's float division is
exact at the relevant boundary sizes; it is modelled over ℚ. -/
def validate_zip_size (MAX_FILE_SIZE_MB : Nat) (len : Nat) : Except Nat Unit :=
  if len = 0 then Except.error 400
  else if (MAX_FILE_SIZE_MB : ℚ) < (len : ℚ) / 1024 / 1024 then Except.error 413
  else Except.ok ()

/-! ### Reconciler (`sync_job_status`, src/src/reconciler.py) -/

/-- Durable job status values. -/
inductive Status
  | PENDING
  | RUNNING
  | SUCCEEDED
  | FAILED
deriving DecidableEq

def Status.isTerminal : Status → Bool
  | .SUCCEEDED => true
  | .FAILED => true
  | _ => false

/-- Rank of a status along PENDING → RUNNING → terminal. -/
def statusRank : Status → Nat
  | .PENDING => 0
  | .RUNNING => 1
  | .SUCCEEDED => 2
  | .FAILED => 2

/-- One workload condition as reported by the orchestrator. -/
structure K8sCondition where
  condType : String
  condStatus : String
deriving DecidableEq

/-- The orchestrator's view of a workload (`k8s_job.status`); a Python
`None` count is modelled as 0 (both are falsy). -/
structure K8sJobStatus where
  conditions : List K8sCondition
  active : Nat
  succeeded : Nat
  failed : Nat
deriving DecidableEq

/-- The condition loop of the active-job pass (reconciler.py 179-186): the
first condition in list order matching `Failed/True` or `Complete/True`
wins; with no match the row's status is kept. -/
def conditionScan (cur : Status) : List K8sCondition → Status
  | [] => cur
  | c :: rest =>
      if c.condType = "Failed" ∧ c.condStatus = "True" then Status.FAILED
      else if c.condType = "Complete" ∧ c.condStatus = "True" then Status.SUCCEEDED
      else conditionScan cur rest

/-- `new_status` as computed by the active-job pass (reconciler.py 177-189):
the condition scan, then the `active and PENDING` check, which overwrites
the scan's result. -/
def newStatus (cur : Status) (k : K8sJobStatus) : Status :=
  let s := conditionScan cur k.conditions
  if k.active ≠ 0 ∧ cur = Status.PENDING then Status.RUNNING else s

/-- Result storage backends returned by `detect_storage_type`
(src/src/storage.py 17-58). -/
inductive StorageType
  | pvc
  | s3
  | gcs
  | azure
deriving DecidableEq

/-- `storage_type in ("s3", "gcs", "azure")`. -/
def StorageType.isCloud : StorageType → Bool
  | .pvc => false
  | _ => true

/-- The `path` field of `get_result_storage_info` (src/src/storage.py
589-617); `.get("path", "")` yields `""` for cloud backends. -/
def storageInfoPath (jobId : String) : StorageType → String
  | .pvc => "/results/" ++ jobId
  | _ => ""

/-- The `prefix` field of `get_result_storage_info` (src/src/storage.py
589-617); `.get("prefix", "")` yields `""` for the volume backend. -/
def storageInfoPfx (jobId ns : String) : StorageType → String
  | .pvc => ""
  | .s3 => "sumo-k8-results/" ++ ns ++ "/" ++ jobId ++ "/"
  | .gcs => "results/" ++ ns ++ "/" ++ jobId ++ "/"
  | .azure => "results/" ++ ns ++ "/" ++ jobId ++ "/"

/-- A `jobs` row, restricted to the fields the reconciler reads and
writes; timestamps and the `result_files` JSON are modelled by presence. -/
structure JobRow where
  status : Status
  started_at : Bool
  finished_at : Bool
  result_location : Option String
  result_files : Bool
  jobId : String
  shortId : String
  ns : String
deriving DecidableEq

/-- The row inserted by `submit_job` (src/src/jobs.py 337-345): status
'PENDING', no timestamps, no result fields. -/
def insertedRow (jobId shortId ns : String) : JobRow :=
  { status := Status.PENDING, started_at := false, finished_at := false,
    result_location := none, result_files := false,
    jobId := jobId, shortId := shortId, ns := ns }

/-- What one reconciler sweep observes about one row's workloads. -/
structure RowObs where
  simFound : Bool
  sim : K8sJobStatus
  uploadFound : Bool
  uploadSucceeded : Nat
deriving DecidableEq

/-- Per-sweep environment: the detected storage backend and whether the
orchestrator accepts the side-workload creations performed by
`upload_results_from_pvc` and `cleanup_pvc_after_upload`. -/
structure SweepEnv where
  storage : StorageType
  uploadScriptCMOk : Bool
  uploadJobOk : Bool
  cleanupScriptCMOk : Bool
  cleanupJobOk : Bool
deriving DecidableEq

/-- Side effects a reconciler sweep can issue for a row. -/
inductive RAction
  | createBlob (blobName : String)
  | createWorkload (wName : String)
  | scheduleChunkCleanup (shortId : String)
deriving DecidableEq

/-- `upload_results_from_pvc` (src/src/storage.py 277-500): for a cloud
backend, create the `upload-script-<shortId>` blob, then the
`upload-<shortId>` workload; the Bool says whether it returned a dict
(success) rather than `None`. -/
def upload_results_from_pvc (env : SweepEnv) (shortId : String) :
    List RAction × Bool :=
  if env.storage.isCloud = false then ([], false)
  else if env.uploadScriptCMOk = false then ([], false)
  else if env.uploadJobOk then
    ([RAction.createBlob ("upload-script-" ++ shortId),
      RAction.createWorkload ("upload-" ++ shortId)], true)
  else
    ([RAction.createBlob ("upload-script-" ++ shortId)], false)

/-- `cleanup_pvc_after_upload` (src/src/storage.py 502-587): create the
`cleanup-script-<shortId>` blob, then the `cleanup-<shortId>` workload;
each creation failure is logged and swallowed. -/
def cleanup_pvc_after_upload (env : SweepEnv) (shortId : String) : List RAction :=
  if env.cleanupScriptCMOk = false then []
  else if env.cleanupJobOk then
    [RAction.createBlob ("cleanup-script-" ++ shortId),
     RAction.createWorkload ("cleanup-" ++ shortId)]
  else
    [RAction.createBlob ("cleanup-script-" ++ shortId)]

/-- Pass 1 of a sweep, timestamp backfill (reconciler.py 25-76): terminal
rows with a missing timestamp get both timestamps backfilled; nothing else
changes and no side-workload is emitted. -/
def pass1 (r : JobRow) : JobRow :=
  if r.status.isTerminal ∧ (r.started_at = false ∨ r.finished_at = false) then
    { r with started_at := true, finished_at := true }
  else r

/-- Pass 2 of a sweep, result-location backfill (reconciler.py 79-119):
terminal rows with a null `result_location` get it written — the storage
prefix (after triggering an upload) or path for SUCCEEDED, `None` for
FAILED. -/
def pass2 (env : SweepEnv) (r : JobRow) : JobRow × List RAction :=
  if r.status.isTerminal ∧ r.result_location = none then
    if r.status = Status.SUCCEEDED then
      if env.storage.isCloud then
        ({ r with result_location := some (storageInfoPfx r.jobId r.ns env.storage),
                  result_files := false },
          (upload_results_from_pvc env r.shortId).1)
      else
        ({ r with result_location := some (storageInfoPath r.jobId env.storage),
                  result_files := false }, [])
    else
      ({ r with result_location := none, result_files := false }, [])
  else (r, [])

/-- `result_location LIKE '%results/%'` over an optional string. -/
def likeResults : Option String → Bool
  | none => false
  | some s => (s.toList.tails.any fun t => "results/".toList.isPrefixOf t)

/-- Pass 3 of a sweep, upload completion (reconciler.py 122-166): for
SUCCEEDED rows with a pending upload, read `upload-<shortId>`; when it
reports success, record `result_files` and, on a cloud backend, emit the
volume cleanup side-workload. -/
def pass3 (env : SweepEnv) (obs : RowObs) (r : JobRow) : JobRow × List RAction :=
  if r.status = Status.SUCCEEDED ∧ r.result_files = false ∧
      likeResults r.result_location then
    if obs.uploadFound ∧ obs.uploadSucceeded ≠ 0 then
      ({ r with result_files := true },
        if env.storage.isCloud then cleanup_pvc_after_upload env r.shortId else [])
    else (r, [])
  else (r, [])

/-- Pass 4 of a sweep, active-job transitions (reconciler.py 169-263):
PENDING/RUNNING rows are re-read from the orchestrator and their status
advanced; terminal edges also write result fields and schedule deferred
chunk cleanup; a 404 marks the row FAILED. -/
def pass4 (env : SweepEnv) (obs : RowObs) (r : JobRow) : JobRow × List RAction :=
  if r.status = Status.PENDING ∨ r.status = Status.RUNNING then
    if obs.simFound then
      let s := newStatus r.status obs.sim
      if s ≠ r.status then
        if s = Status.RUNNING then
          ({ r with status := s, started_at := true }, [])
        else if s = Status.SUCCEEDED ∨ s = Status.FAILED then
          if s = Status.SUCCEEDED then
            if env.storage.isCloud then
              let up := upload_results_from_pvc env r.shortId
              if up.2 then
                ({ r with status := s,
                          finished_at := true,
                          started_at := true,
                          result_location :=
                            some (storageInfoPfx r.jobId r.ns env.storage),
                          result_files := false },
                  up.1 ++ [RAction.scheduleChunkCleanup r.shortId])
              else
                ({ r with status := s,
                          finished_at := true,
                          started_at := true,
                          result_location :=
                            some (storageInfoPath r.jobId env.storage),
                          result_files := false },
                  up.1 ++ [RAction.scheduleChunkCleanup r.shortId])
            else
              ({ r with status := s,
                        finished_at := true,
                        started_at := true,
                        result_location := some (storageInfoPath r.jobId env.storage),
                        result_files := false },
                [RAction.scheduleChunkCleanup r.shortId])
          else
            ({ r with status := s,
                      finished_at := true,
                      started_at := true,
                      result_location := none,
                      result_files := false },
              [RAction.scheduleChunkCleanup r.shortId])
        else
          ({ r with status := s }, [])
      else (r, [])
    else
      ({ r with status := Status.FAILED, finished_at := true }, [])
  else (r, [])

/-- One reconciler sweep for one row: the four passes of `sync_job_status`
in source order, later passes seeing the row as updated by earlier ones. -/
def sweepRow (env : SweepEnv) (obs : RowObs) (r : JobRow) : JobRow × List RAction :=
  let r1 := pass1 r
  let p2 := pass2 env r1
  let p3 := pass3 env obs p2.1
  let p4 := pass4 env obs p3.1
  (p4.1, p2.2 ++ p3.2 ++ p4.2)

/-- The sequence of durable status values of one row across a list of
sweeps, starting from the freshly inserted row state. -/
def statusTrace (r : JobRow) : List (SweepEnv × RowObs) → List Status
  | [] => [r.status]
  | eo :: rest => r.status :: statusTrace (sweepRow eo.1 eo.2 r).1 rest

/-- The spec's amended condition mapping: the first condition in list
order carrying `Failed/True` or `Complete/True` determines the signal. -/
def firstSignal : List K8sCondition → Option Status
  | [] => none
  | c :: rest =>
      if c.condType = "Failed" ∧ c.condStatus = "True" then some Status.FAILED
      else if c.condType = "Complete" ∧ c.condStatus = "True" then some Status.SUCCEEDED
      else firstSignal rest

/-! ### Tenant provisioner (`ensure_tenant_namespace`, src/src/scaling.py) -/

/-- ASCII digit character of a value below 10. -/
def digitChar (d : Nat) : Char := Char.ofNat (48 + d)

/-- Decimal digits of a non-negative integer, fuel-driven. -/
def natStrAux : Nat → Nat → List Char
  | 0, _ => []
  | fuel + 1, n =>
      if n < 10 then [digitChar n]
      else natStrAux fuel (n / 10) ++ [digitChar (n % 10)]

/-- Python's `str` on a non-negative int: decimal notation. -/
def natStr (n : Nat) : List Char := natStrAux (n + 1) n

/-- `str(n)` as a `String`. -/
def numStr (n : Nat) : String := ⟨natStr n⟩

/-- Value of a decimal digit string. -/
def decVal (l : List Char) : Nat := l.foldl (fun acc c => acc * 10 + (c.toNat - 48)) 0

/-- A tenant row as read by the provisioner. -/
structure Tenant where
  nsName : String
  max_cpu : Nat
  max_memory_gi : Nat
  max_concurrent_jobs : Nat
deriving DecidableEq

/-- The `hard` values of a tenant ResourceQuota. -/
structure QuotaSpec where
  requestsCpu : String
  requestsMemory : String
  limitsCpu : String
  limitsMemory : String
  pods : String
deriving DecidableEq

/-- The single LimitRange item. -/
structure LimitRangeItem where
  defaultCpu : String
  defaultMemory : String
  defaultRequestCpu : String
  defaultRequestMemory : String
  maxCpu : String
  maxMemory : String
deriving DecidableEq

/-- The quota body built from the tenant row (src/src/scaling.py 39-50,
55-66). -/
def desiredQuota (t : Tenant) : QuotaSpec :=
  { requestsCpu := numStr t.max_cpu,
    requestsMemory := numStr t.max_memory_gi ++ "Gi",
    limitsCpu := numStr t.max_cpu,
    limitsMemory := numStr t.max_memory_gi ++ "Gi",
    pods := numStr t.max_concurrent_jobs }

/-- The limit-range body built from the tenant row (src/src/scaling.py
79-94, 99-114). -/
def desiredLimitRange (t : Tenant) : LimitRangeItem :=
  { defaultCpu := "1", defaultMemory := "2Gi",
    defaultRequestCpu := "100m", defaultRequestMemory := "256Mi",
    maxCpu := numStr t.max_cpu,
    maxMemory := numStr t.max_memory_gi ++ "Gi" }

/-- The orchestrator objects of one tenant namespace. -/
structure ClusterNS where
  nsExists : Bool
  quota : Option QuotaSpec
  limits : Option LimitRangeItem
  pvc : Bool
deriving DecidableEq

/-- One orchestrator write performed by the provisioner. -/
inductive PWrite
  | createNamespace
  | createQuota (q : QuotaSpec)
  | patchQuota (q : QuotaSpec)
  | createLimitRange (l : LimitRangeItem)
  | patchLimitRange (l : LimitRangeItem)
  | createPVC
deriving DecidableEq

/-- The ResourceQuota step of `ensure_tenant_namespace` (src/src/scaling.py
29-68): read; if present, `needs_update` compares only the string values of
`requests.cpu` and `requests.memory` against the tenant row, patching on
drift; on 404 create. -/
def quotaStep (t : Tenant) : Option QuotaSpec → List PWrite × QuotaSpec
  | some q =>
      if q.requestsCpu ≠ numStr t.max_cpu ∨
          q.requestsMemory ≠ numStr t.max_memory_gi ++ "Gi" then
        ([PWrite.patchQuota (desiredQuota t)], desiredQuota t)
      else ([], q)
  | none => ([PWrite.createQuota (desiredQuota t)], desiredQuota t)

/-- The LimitRange step of `ensure_tenant_namespace` (src/src/scaling.py
70-116): drift compares the item's `max` cpu and memory strings. -/
def limitRangeStep (t : Tenant) : Option LimitRangeItem → List PWrite × LimitRangeItem
  | some l =>
      if l.maxCpu ≠ numStr t.max_cpu ∨ l.maxMemory ≠ numStr t.max_memory_gi ++ "Gi" then
        ([PWrite.patchLimitRange (desiredLimitRange t)], desiredLimitRange t)
      else ([], l)
  | none => ([PWrite.createLimitRange (desiredLimitRange t)], desiredLimitRange t)

/-- `ensure_tenant_namespace` (src/src/scaling.py 12-123) together with the
PVC step of `ensure_tenant_pvc` (143-182): namespace created if absent,
quota and limit range created or patched on drift, PVC created if absent.
The returned state is the cluster state after the writes. -/
def ensure_tenant_namespace (t : Tenant) (st : ClusterNS) : List PWrite × ClusterNS :=
  let nsW : List PWrite := if st.nsExists then [] else [PWrite.createNamespace]
  let qs := quotaStep t st.quota
  let ls := limitRangeStep t st.limits
  let pvcW : List PWrite := if st.pvc then [] else [PWrite.createPVC]
  (nsW ++ qs.1 ++ ls.1 ++ pvcW,
    { nsExists := true, quota := some qs.2, limits := some ls.2, pvc := true })

/-! ### Theorems -/

theorem b64inv_tbl : ∀ x < 64, b64inv (b64tbl x) = x := by decide

theorem b64tbl_ne_pad : ∀ x < 64, b64tbl x ≠ 61 := by decide

theorem b64_roundtrip : ∀ l : List Nat, (∀ x ∈ l, x < 256) → b64decode (b64encode l) = l
  | [], _ => rfl
  | [a], h => by
      have ha : a < 256 := h a (by simp)
      have h1 : a / 4 < 64 := by omega
      have h2 : a % 4 * 16 < 64 := by omega
      simp [b64encode, b64decode, b64inv_tbl _ h1, b64inv_tbl _ h2]
      omega
  | [a, b], h => by
      have ha : a < 256 := h a (by simp)
      have hb : b < 256 := h b (by simp)
      have h1 : a / 4 < 64 := by omega
      have h2 : a % 4 * 16 + b / 16 < 64 := by omega
      have h3 : b % 16 * 4 < 64 := by omega
      simp [b64encode, b64decode, b64inv_tbl _ h1, b64inv_tbl _ h2, b64inv_tbl _ h3,
        b64tbl_ne_pad _ h3]
      omega
  | a :: b :: c :: d :: rest, h => by
      have ha : a < 256 := h a (by simp)
      have hb : b < 256 := h b (by simp)
      have hc : c < 256 := h c (by simp)
      have h1 : a / 4 < 64 := by omega
      have h2 : a % 4 * 16 + b / 16 < 64 := by omega
      have h3 : b % 16 * 4 + c / 64 < 64 := by omega
      have h4 : c % 64 < 64 := by omega
      have ih := b64_roundtrip (d :: rest) (fun x hx => h x (by simp at hx ⊢; tauto))
      simp [b64encode, b64decode, b64inv_tbl _ h1, b64inv_tbl _ h2, b64inv_tbl _ h3,
        b64inv_tbl _ h4, b64tbl_ne_pad _ h3, b64tbl_ne_pad _ h4, ih]
      omega
  | [a, b, c], h => by
      have ha : a < 256 := h a (by simp)
      have hb : b < 256 := h b (by simp)
      have hc : c < 256 := h c (by simp)
      have h1 : a / 4 < 64 := by omega
      have h2 : a % 4 * 16 + b / 16 < 64 := by omega
      have h3 : b % 16 * 4 + c / 64 < 64 := by omega
      have h4 : c % 64 < 64 := by omega
      simp [b64encode, b64decode, b64inv_tbl _ h1, b64inv_tbl _ h2, b64inv_tbl _ h3,
        b64inv_tbl _ h4, b64tbl_ne_pad _ h3, b64tbl_ne_pad _ h4]
      omega

theorem b64encode_length : ∀ l : List Nat, (b64encode l).length = 4 * ((l.length + 2) / 3)
  | [] => rfl
  | [_] => by simp [b64encode]
  | [_, _] => by simp [b64encode]
  | _ :: _ :: _ :: rest => by
      simp only [b64encode, List.length_cons, b64encode_length rest]
      omega

theorem chunk_data_length (s : List Nat) (i : Nat) :
    (chunk_data s i).length = min max_chunk_size (s.length - i * max_chunk_size) := by
  simp [chunk_data]

/-- Splitting any list into consecutive `k`-sized slices and joining them
back is the identity. -/
theorem join_chunk_slices {α : Type} (k : Nat) (hk : 0 < k) (s : List α) :
    ((List.range ((s.length + k - 1) / k)).map (fun i => (s.drop (i * k)).take k)).flatten
      = s := by
  cases s with
  | nil =>
      have h0 : (([] : List α).length + k - 1) / k = 0 := Nat.div_eq_of_lt (by simp; omega)
      simp [h0]
  | cons a t =>
      have ih := join_chunk_slices k hk ((a :: t).drop k)
      have hdl : ((a :: t).drop k).length = t.length + 1 - k := by simp
      have hcount : (((a :: t).drop k).length + k - 1) / k = t.length / k := by
        rw [hdl]
        rcases Nat.lt_or_ge t.length k with hlt | hge
        · have h1 : t.length + 1 - k + k - 1 = ((t.length + 1 - k) + (k - 1)) := by omega
          have h2 : t.length + 1 - k + (k - 1) < k := by omega
          rw [h1, Nat.div_eq_of_lt h2, Nat.div_eq_of_lt hlt]
        · have h1 : t.length + 1 - k + k - 1 = (t.length - k) + k := by omega
          rw [h1, Nat.add_div_right _ hk]
          have h2 : t.length = (t.length - k) + k := by omega
          conv_rhs => rw [h2]
          rw [Nat.add_div_right _ hk]
      have hN : ((a :: t).length + k - 1) / k = t.length / k + 1 := by
        have h1 : (a :: t).length + k - 1 = t.length + k := by
          simp only [List.length_cons]; omega
        rw [h1, Nat.add_div_right _ hk]
      rw [hN, List.range_succ_eq_map, List.map_cons, List.flatten_cons, List.map_map]
      have hmap : (List.range (t.length / k)).map
            ((fun i => ((a :: t).drop (i * k)).take k) ∘ Nat.succ)
          = (List.range ((((a :: t).drop k).length + k - 1) / k)).map
              (fun i => (((a :: t).drop k).drop (i * k)).take k) := by
        rw [hcount]
        refine List.map_congr_left (fun i _ => ?_)
        simp only [Function.comp_apply, List.drop_drop]
        rw [Nat.succ_mul]
        ring_nf
      rw [hmap, ih]
      simp only [Nat.zero_mul, List.drop_zero]
      exact List.take_append_drop k (a :: t)
termination_by s.length
decreasing_by simp; omega

/-- Joining the `create_k8s_job` chunk slices in numeric index order
reproduces the full base64 text. -/
theorem join_chunks (s : List Nat) :
    ((List.range (num_chunks s.length)).map (chunk_data s)).flatten = s :=
  join_chunk_slices max_chunk_size (by norm_num [max_chunk_size]) s

/-- When every chunk creation from index `i` on succeeds, the loop creates
exactly the remaining chunks in index order and returns them all. -/
theorem createChunksFrom_ok_all (ok : String → Bool) (shortId : String) (s : List Nat)
    (i : Nat) (created : List String)
    (hok : ∀ j, i ≤ j → j < num_chunks s.length → ok (chunk_name shortId j) = true) :
    createChunksFrom ok shortId s i created =
      ((List.range' i (num_chunks s.length - i)).map
          (fun j => K8sOp.createConfigMap (chunk_name shortId j) (chunk_data s j)),
        Except.ok (created ++ (List.range' i (num_chunks s.length - i)).map
          (chunk_name shortId))) := by
  rw [createChunksFrom]
  by_cases h : i < num_chunks s.length
  · rw [dif_pos h]
    simp only [hok i le_rfl h, if_true]
    have ih := createChunksFrom_ok_all ok shortId s (i + 1)
      (created ++ [chunk_name shortId i]) (fun j h1 h2 => hok j (by omega) h2)
    rw [ih]
    have hsz : num_chunks s.length - i = (num_chunks s.length - (i + 1)) + 1 := by omega
    rw [hsz, List.range'_succ]
    simp [List.append_assoc]
  · rw [dif_neg h]
    have hsz : num_chunks s.length - i = 0 := by omega
    simp [hsz]
termination_by num_chunks s.length - i

/-- When chunk creations succeed up to index `f` and the creation of chunk
`f` fails, the loop's side effects are the successful creations followed by
a deletion of each of them, and HTTP 500 is raised. -/
theorem createChunksFrom_fail (ok : String → Bool) (shortId : String) (s : List Nat)
    (f i : Nat) (created : List String)
    (hi : i ≤ f) (hf : f < num_chunks s.length)
    (hok : ∀ j, i ≤ j → j < f → ok (chunk_name shortId j) = true)
    (hbad : ok (chunk_name shortId f) = false) :
    createChunksFrom ok shortId s i created =
      ((List.range' i (f - i)).map
          (fun j => K8sOp.createConfigMap (chunk_name shortId j) (chunk_data s j))
          ++ (created ++ (List.range' i (f - i)).map (chunk_name shortId)).map
              K8sOp.deleteConfigMap,
        Except.error 500) := by
  rw [createChunksFrom]
  rcases Nat.eq_or_lt_of_le hi with heq | hlt
  · subst heq
    rw [dif_pos hf]
    simp [hbad]
  · rw [dif_pos (by omega)]
    simp only [hok i le_rfl hlt, if_true]
    have ih := createChunksFrom_fail ok shortId s f (i + 1)
      (created ++ [chunk_name shortId i]) (by omega) hf
      (fun j h1 h2 => hok j (by omega) h2) hbad
    rw [ih]
    have hsz : f - i = (f - (i + 1)) + 1 := by omega
    rw [hsz, List.range'_succ]
    simp [List.append_assoc]
termination_by f - i

/-- C10: in the sharded materialisation path, every created shard stores a
chunk of at most 900 000 base64 bytes, and every shard except possibly the
last stores exactly 900 000 bytes, for every encoding length over 900 000. -/
theorem C10_chunk_size_bound (s : List Nat) (i : Nat)
    (hL : max_chunk_size < s.length) (hi : i < num_chunks s.length) :
    (chunk_data s i).length ≤ 900000 ∧
      (i + 1 < num_chunks s.length → (chunk_data s i).length = 900000) := by
  have h := chunk_data_length s i
  simp only [max_chunk_size, num_chunks] at h hi ⊢
  omega

theorem C10_chunk_size_bound_witness :
    (chunk_data (List.replicate 900001 0) 0).length = 900000 :=
  (C10_chunk_size_bound (List.replicate 900001 0) 0
      (by rw [List.length_replicate]; norm_num [max_chunk_size])
      (by rw [List.length_replicate]; norm_num [num_chunks, max_chunk_size])).2
    (by rw [List.length_replicate]; norm_num [num_chunks, max_chunk_size])

/-- C5: during sharded materialisation, if creating shard `f` fails, every
already-created shard (`chunk0` through `chunk(f-1)`) is deleted before the
500 error is surfaced, and the workload is not emitted. -/
theorem C5_shard_rollback (ok : String → Bool) (shortId : String) (zip_b64 : List Nat)
    (f : Nat) (hL : max_chunk_size < zip_b64.length)
    (hf : f < num_chunks zip_b64.length)
    (hok : ∀ j, j < f → ok (chunk_name shortId j) = true)
    (hbad : ok (chunk_name shortId f) = false) :
    create_k8s_job ok shortId zip_b64 =
      ((List.range f).map
          (fun j => K8sOp.createConfigMap (chunk_name shortId j) (chunk_data zip_b64 j))
          ++ (List.range f).map (fun j => K8sOp.deleteConfigMap (chunk_name shortId j)),
        Except.error 500) ∧
      ∀ w, K8sOp.createJob w ∉ (create_k8s_job ok shortId zip_b64).1 := by
  have hloop := createChunksFrom_fail ok shortId zip_b64 f 0 [] (Nat.zero_le f) hf
    (fun j _ h2 => hok j h2) hbad
  have hmain : create_k8s_job ok shortId zip_b64 =
      ((List.range f).map
          (fun j => K8sOp.createConfigMap (chunk_name shortId j) (chunk_data zip_b64 j))
          ++ (List.range f).map (fun j => K8sOp.deleteConfigMap (chunk_name shortId j)),
        Except.error 500) := by
    rw [create_k8s_job, if_pos hL, hloop]
    simp [List.range_eq_range', List.map_map, Function.comp_def]
  refine ⟨hmain, fun w => ?_⟩
  rw [hmain]
  simp

theorem C5_shard_rollback_witness :
    create_k8s_job (fun n => decide (n ≠ chunk_name "ab12cd34" 1)) "ab12cd34"
        (List.replicate 900001 65) =
      ((List.range 1).map
          (fun j => K8sOp.createConfigMap (chunk_name "ab12cd34" j)
            (chunk_data (List.replicate 900001 65) j))
          ++ (List.range 1).map (fun j => K8sOp.deleteConfigMap (chunk_name "ab12cd34" j)),
        Except.error 500) :=
  (C5_shard_rollback (fun n => decide (n ≠ chunk_name "ab12cd34" 1)) "ab12cd34"
      (List.replicate 900001 65) 1
      (by rw [List.length_replicate]; norm_num [max_chunk_size])
      (by rw [List.length_replicate]; norm_num [num_chunks, max_chunk_size])
      (by intro j hj; interval_cases j; decide)
      (by simp)).1

/-- C1: for every submitted ZIP payload whose base64 encoding is longer than
900 000, the pipeline creates exactly `N = ceil(L / 900000)` shards named
`sumo-<shortId>-chunk0 … chunk(N-1)`, each holding one slice of the
encoding, and joining the chunk values in numeric index order and
base64-decoding yields the submitted ZIP bytes bit-exact, for `N ∈ [1, 50]`. -/
theorem C1_payload_roundtrip (zipBytes : List Nat) (shortId : String)
    (hbytes : ∀ x ∈ zipBytes, x < 256)
    (hL : max_chunk_size < (b64encode zipBytes).length)
    (hN : num_chunks (b64encode zipBytes).length ≤ 50) :
    create_k8s_job (fun _ => true) shortId (b64encode zipBytes) =
      ((List.range (num_chunks (b64encode zipBytes).length)).map
          (fun i => K8sOp.createConfigMap (chunk_name shortId i)
            (chunk_data (b64encode zipBytes) i))
          ++ [K8sOp.createJob ("sim-" ++ shortId)], Except.ok ()) ∧
      1 ≤ num_chunks (b64encode zipBytes).length ∧
      b64decode (((List.range (num_chunks (b64encode zipBytes).length)).map
          (chunk_data (b64encode zipBytes))).flatten) = zipBytes := by
  have hloop := createChunksFrom_ok_all (fun _ => true) shortId (b64encode zipBytes) 0 []
    (fun _ _ _ => rfl)
  refine ⟨?_, ?_, ?_⟩
  · rw [create_k8s_job, if_pos hL, hloop]
    simp [List.range_eq_range']
  · simp only [num_chunks, max_chunk_size] at hL ⊢
    omega
  · rw [join_chunks]
    exact b64_roundtrip zipBytes hbytes

theorem C1_payload_roundtrip_witness :
    b64decode (((List.range (num_chunks (b64encode (List.replicate 700000 65)).length)).map
        (chunk_data (b64encode (List.replicate 700000 65)))).flatten)
      = List.replicate 700000 65 :=
  (C1_payload_roundtrip (List.replicate 700000 65) "ab12cd34"
      (fun x hx => by rw [List.eq_of_mem_replicate hx]; norm_num)
      (by rw [b64encode_length, List.length_replicate]; norm_num [max_chunk_size])
      (by rw [b64encode_length, List.length_replicate]
          norm_num [num_chunks, max_chunk_size])).2.2

/-- C8: the admission check rejects with 400 exactly when `cpu_request`
lies outside `[1, max_cpu]` or `memory_gi` lies outside
`[1, max_memory_gi]`; 1 and the maxima pass, `max + 1` is rejected, and
the rejection message references the bounds 1 and the tenant maximum. -/
theorem C8_resource_admission (cpu mem maxCpu maxMem : Int)
    (hc : 1 ≤ maxCpu) (hm : 1 ≤ maxMem) :
    (validate_resource_request cpu mem maxCpu maxMem = Except.ok () ↔
      (1 ≤ cpu ∧ cpu ≤ maxCpu ∧ 1 ≤ mem ∧ mem ≤ maxMem)) ∧
    validate_resource_request 1 1 maxCpu maxMem = Except.ok () ∧
    validate_resource_request maxCpu maxMem maxCpu maxMem = Except.ok () ∧
    validate_resource_request (maxCpu + 1) mem maxCpu maxMem =
      Except.error (400, "CPU request (" ++ toString (maxCpu + 1)
        ++ ") must be between 1 and " ++ toString maxCpu) ∧
    (∀ code detail, validate_resource_request cpu mem maxCpu maxMem =
        Except.error (code, detail) → code = 400) := by
  refine ⟨?_, ?_, ?_, ?_, ?_⟩
  · unfold validate_resource_request
    split_ifs with h1 h2 <;> simp <;> omega
  · unfold validate_resource_request
    rw [if_neg (by omega), if_neg (by omega)]
  · unfold validate_resource_request
    rw [if_neg (by omega), if_neg (by omega)]
  · unfold validate_resource_request
    rw [if_pos (by omega)]
  · unfold validate_resource_request
    split_ifs with h1 h2 <;> intro code detail h <;> simp at h <;> omega

theorem C8_resource_admission_witness :
    validate_resource_request 1 1 4 8 = Except.ok () :=
  (C8_resource_admission 2 4 4 8 (by norm_num) (by norm_num)).2.1

/-- C9: a 0-byte payload is rejected with 400, a payload of
`MAX_FILE_SIZE_MB·1MiB - 1` bytes passes the size check, and a payload of
`MAX_FILE_SIZE_MB·1MiB + 1` bytes is rejected with 413. -/
theorem C9_payload_size_boundaries (M : Nat) (hM : 0 < M) :
    validate_zip_size M 0 = Except.error 400 ∧
    validate_zip_size M (M * 1048576 - 1) = Except.ok () ∧
    validate_zip_size M (M * 1048576 + 1) = Except.error 413 := by
  have h1 : (1 : Nat) ≤ M * 1048576 := by
    have := Nat.mul_le_mul hM (by norm_num : (1:Nat) ≤ 1048576)
    omega
  refine ⟨by simp [validate_zip_size], ?_, ?_⟩
  · unfold validate_zip_size
    have hlt : ((M * 1048576 - 1 : Nat) : ℚ) / 1024 / 1024 < M := by
      rw [Nat.cast_sub h1, div_div, div_lt_iff (by norm_num)]
      push_cast
      linarith
    rw [if_neg (by omega), if_neg (not_lt.mpr (le_of_lt hlt))]
  · unfold validate_zip_size
    have hgt : (M : ℚ) < ((M * 1048576 + 1 : Nat) : ℚ) / 1024 / 1024 := by
      rw [div_div, lt_div_iff (by norm_num)]
      push_cast
      linarith
    rw [if_neg (by omega), if_pos hgt]

theorem C9_payload_size_boundaries_witness :
    validate_zip_size 100 (100 * 1048576 + 1) = Except.error 413 :=
  (C9_payload_size_boundaries 100 (by norm_num)).2.2

theorem pass1_status (r : JobRow) : (pass1 r).status = r.status := by
  unfold pass1; split_ifs <;> rfl

theorem pass1_result_location (r : JobRow) :
    (pass1 r).result_location = r.result_location := by
  unfold pass1; split_ifs <;> rfl

theorem pass1_fields (r : JobRow) : (pass1 r).result_files = r.result_files ∧
    (pass1 r).jobId = r.jobId ∧ (pass1 r).shortId = r.shortId ∧ (pass1 r).ns = r.ns := by
  unfold pass1; split_ifs <;> exact ⟨rfl, rfl, rfl, rfl⟩

theorem pass2_status (env : SweepEnv) (r : JobRow) :
    (pass2 env r).1.status = r.status := by
  unfold pass2; split_ifs <;> rfl

theorem pass2_shortId (env : SweepEnv) (r : JobRow) :
    (pass2 env r).1.shortId = r.shortId := by
  unfold pass2; split_ifs <;> rfl

theorem pass3_status (env : SweepEnv) (obs : RowObs) (r : JobRow) :
    (pass3 env obs r).1.status = r.status := by
  unfold pass3; split_ifs <;> rfl

theorem pass3_result_location (env : SweepEnv) (obs : RowObs) (r : JobRow) :
    (pass3 env obs r).1.result_location = r.result_location := by
  unfold pass3; split_ifs <;> rfl

theorem conditionScan_cases (cur : Status) (l : List K8sCondition) :
    conditionScan cur l = cur ∨ conditionScan cur l = Status.SUCCEEDED ∨
      conditionScan cur l = Status.FAILED := by
  induction l with
  | nil => exact Or.inl rfl
  | cons c rest ih =>
      unfold conditionScan
      split_ifs <;> simp [ih]

theorem newStatus_cases (cur : Status) (k : K8sJobStatus) :
    newStatus cur k = cur ∨ newStatus cur k = Status.RUNNING ∨
      newStatus cur k = Status.SUCCEEDED ∨ newStatus cur k = Status.FAILED := by
  unfold newStatus
  split_ifs <;> simp [conditionScan_cases cur k.conditions]
  rcases conditionScan_cases cur k.conditions with h | h | h <;> simp [h]

/-- The status written by the active-job pass, as a single equation. -/
theorem pass4_status_eq (env : SweepEnv) (obs : RowObs) (r : JobRow) :
    (pass4 env obs r).1.status =
      if r.status = Status.PENDING ∨ r.status = Status.RUNNING then
        (if obs.simFound then newStatus r.status obs.sim else Status.FAILED)
      else r.status := by
  unfold pass4
  split_ifs <;> simp_all <;> split_ifs <;> simp_all

theorem sweepRow_status_eq (env : SweepEnv) (obs : RowObs) (r : JobRow) :
    (sweepRow env obs r).1.status =
      if r.status = Status.PENDING ∨ r.status = Status.RUNNING then
        (if obs.simFound then newStatus r.status obs.sim else Status.FAILED)
      else r.status := by
  unfold sweepRow
  rw [pass4_status_eq, pass3_status, pass2_status, pass1_status]

/-- Pointwise status-step facts for one sweep: rank never decreases, a
changed status strictly increases rank, and terminal rows are absorbing. -/
theorem sweep_status_rel (env : SweepEnv) (obs : RowObs) (r : JobRow) :
    statusRank r.status ≤ statusRank ((sweepRow env obs r).1.status) ∧
    ((sweepRow env obs r).1.status ≠ r.status →
      statusRank r.status < statusRank ((sweepRow env obs r).1.status)) ∧
    (r.status.isTerminal = true → (sweepRow env obs r).1.status = r.status) := by
  rw [sweepRow_status_eq]
  rcases hst : r.status with _ | _ | _ | _ <;>
    simp [Status.isTerminal, statusRank] <;>
    by_cases hf : obs.simFound <;>
    rcases newStatus_cases r.status obs.sim with h | h | h | h <;>
    rw [hst] at h <;>
    simp [hf, h, statusRank]

theorem statusTrace_head (r : JobRow) (l : List (SweepEnv × RowObs)) :
    (statusTrace r l).head? = some r.status := by
  cases l <;> rfl

theorem statusTrace_chain (r : JobRow) (l : List (SweepEnv × RowObs)) :
    List.Chain'
      (fun a b => statusRank a ≤ statusRank b ∧ (a ≠ b → statusRank a < statusRank b) ∧
        (a.isTerminal = true → b = a))
      (statusTrace r l) := by
  induction l generalizing r with
  | nil => simp [statusTrace]
  | cons eo rest ih =>
      rw [statusTrace, List.chain'_cons']
      refine ⟨?_, ih _⟩
      intro y hy
      rw [statusTrace_head] at hy
      cases hy
      have h := sweep_status_rel eo.1 eo.2 r
      exact ⟨h.1, fun hne => h.2.1 (fun he => hne he.symm), fun ht => (h.2.2 ht)⟩

/-- C3: a job row's durable status sequence is a monotone prefix of
PENDING → RUNNING → terminal: submission inserts PENDING, every sweep
moves the status weakly forward (strictly when it writes), and terminal
rows never move back. -/
theorem C3_status_monotone (jobId shortId ns : String)
    (l : List (SweepEnv × RowObs)) :
    (statusTrace (insertedRow jobId shortId ns) l).head? = some Status.PENDING ∧
    List.Chain'
      (fun a b => statusRank a ≤ statusRank b ∧ (a ≠ b → statusRank a < statusRank b) ∧
        (a.isTerminal = true → b = a))
      (statusTrace (insertedRow jobId shortId ns) l) :=
  ⟨statusTrace_head _ l, statusTrace_chain _ l⟩

/-- C4 as stated is false on the code: with a `Failed/True` condition and
`active = 1` on a PENDING row the reconciler computes RUNNING (the active
check runs after the condition scan and overwrites it), and with
conditions `[Complete/True, Failed/True]` the first condition in list
order wins, yielding SUCCEEDED where the claim requires FAILED. -/
theorem C4_condition_mapping_cex :
    newStatus Status.PENDING ⟨[⟨"Failed", "True"⟩], 1, 0, 0⟩ = Status.RUNNING ∧
    newStatus Status.RUNNING ⟨[⟨"Complete", "True"⟩, ⟨"Failed", "True"⟩], 0, 0, 0⟩
        = Status.SUCCEEDED ∧
    Status.RUNNING ≠ Status.FAILED ∧ Status.SUCCEEDED ≠ Status.FAILED := by
  refine ⟨rfl, rfl, by decide, by decide⟩

theorem conditionScan_eq_firstSignal (cur : Status) (l : List K8sCondition) :
    conditionScan cur l = (firstSignal l).getD cur := by
  induction l with
  | nil => rfl
  | cons c rest ih =>
      unfold conditionScan firstSignal
      split_ifs <;> simp [ih]

/-- C4 amended: the active-job pass scans the conditions in list order and
the first `Failed/True` or `Complete/True` wins; afterwards `active ≥ 1`
on a PENDING row overrides the result to RUNNING; a workload reporting no
conditions with all-zero counts leaves a fresh PENDING row unchanged with
no write and no side effect. -/
theorem C4_condition_mapping_amended (cur : Status) (k : K8sJobStatus) :
    (newStatus cur k =
      if 1 ≤ k.active ∧ cur = Status.PENDING then Status.RUNNING
      else (firstSignal k.conditions).getD cur) ∧
    (∀ env : SweepEnv, ∀ r : JobRow, r.status = Status.PENDING →
      r.result_location = none → r.result_files = false →
      sweepRow env ⟨true, ⟨[], 0, 0, 0⟩, false, 0⟩ r = (r, [])) := by
  constructor
  · unfold newStatus
    rw [conditionScan_eq_firstSignal]
    by_cases h : k.active ≠ 0 ∧ cur = Status.PENDING
    · rw [if_pos h, if_pos ⟨Nat.one_le_iff_ne_zero.mpr h.1, h.2⟩]
    · rw [if_neg h, if_neg (fun hc => h ⟨Nat.one_le_iff_ne_zero.mp hc.1, hc.2⟩)]
  · intro env r hst hloc hfil
    unfold sweepRow pass1 pass2 pass3 pass4
    simp [hst, hloc, hfil, Status.isTerminal, newStatus, conditionScan]

theorem C4_condition_mapping_amended_witness :
    sweepRow ⟨StorageType.pvc, true, true, true, true⟩
        ⟨true, ⟨[], 0, 0, 0⟩, false, 0⟩ (insertedRow "j1" "j1short" "acme")
      = (insertedRow "j1" "j1short" "acme", []) :=
  (C4_condition_mapping_amended Status.PENDING ⟨[], 0, 0, 0⟩).2
    ⟨StorageType.pvc, true, true, true, true⟩ (insertedRow "j1" "j1short" "acme")
    rfl rfl rfl

/-- C2 as stated is false on the code: when a sweep observes a `Failed`
workload condition for a RUNNING row, the row becomes terminal (FAILED)
but its `result_location` is written as NULL, and the backfill pass also
writes NULL for FAILED rows — so a FAILED row never gets a non-null
`result_location`. -/
theorem C2_result_location_cex :
    ((sweepRow ⟨StorageType.pvc, true, true, true, true⟩
        ⟨true, ⟨[⟨"Failed", "True"⟩], 0, 0, 1⟩, false, 0⟩
        { status := Status.RUNNING, started_at := true, finished_at := false,
          result_location := none, result_files := false,
          jobId := "j1", shortId := "j1short", ns := "acme" }).1.status
      = Status.FAILED) ∧
    ((sweepRow ⟨StorageType.pvc, true, true, true, true⟩
        ⟨true, ⟨[⟨"Failed", "True"⟩], 0, 0, 1⟩, false, 0⟩
        { status := Status.RUNNING, started_at := true, finished_at := false,
          result_location := none, result_files := false,
          jobId := "j1", shortId := "j1short", ns := "acme" }).1.result_location
      = none) ∧
    Status.FAILED.isTerminal = true := by
  refine ⟨by decide, by decide, rfl⟩

theorem pass2_result_inv (env : SweepEnv) (r : JobRow)
    (h : r.result_location.isSome = true ↔ r.status = Status.SUCCEEDED) :
    (pass2 env r).1.result_location.isSome = true ↔
      (pass2 env r).1.status = Status.SUCCEEDED := by
  unfold pass2
  split_ifs <;> simp_all

theorem pass4_result_inv (env : SweepEnv) (obs : RowObs) (r : JobRow)
    (h : r.result_location.isSome = true ↔ r.status = Status.SUCCEEDED) :
    (pass4 env obs r).1.result_location.isSome = true ↔
      (pass4 env obs r).1.status = Status.SUCCEEDED := by
  unfold pass4
  by_cases h1 : r.status = Status.PENDING ∨ r.status = Status.RUNNING
  · have hns : r.status ≠ Status.SUCCEEDED := by
      rcases h1 with h1 | h1 <;> simp [h1]
    have hloc : r.result_location = none := by
      rcases hl : r.result_location with _ | v
      · rfl
      · exact absurd (h.mp (by simp [hl])) hns
    rw [if_pos h1]
    by_cases h2 : obs.simFound
    · simp only [h2, if_true]
      split_ifs <;> simp_all
    · simp only [h2, Bool.false_eq_true, if_false]
      simp [hloc]
  · rw [if_neg h1]
    exact h

/-- C2 amended: `result_location` is non-null iff the row's status is
SUCCEEDED — in particular a FAILED row keeps a NULL `result_location`
after every sweep, while a SUCCEEDED row has it populated by the sweep
that observes the terminal status. The invariant holds at insertion and
is preserved by every reconciler sweep. -/
theorem C2_result_location_amended (env : SweepEnv) (obs : RowObs) (r : JobRow)
    (h : r.result_location.isSome = true ↔ r.status = Status.SUCCEEDED) :
    ((sweepRow env obs r).1.result_location.isSome = true ↔
      (sweepRow env obs r).1.status = Status.SUCCEEDED) ∧
    (∀ jobId shortId ns : String,
      (insertedRow jobId shortId ns).result_location.isSome = true ↔
        (insertedRow jobId shortId ns).status = Status.SUCCEEDED) := by
  constructor
  · unfold sweepRow
    apply pass4_result_inv
    have h2 := pass2_result_inv env (pass1 r)
      (by rw [pass1_result_location, pass1_status]; exact h)
    rw [pass3_result_location, pass3_status]
    exact h2
  · intro jobId shortId ns
    simp [insertedRow]

theorem C2_result_location_amended_witness :
    (sweepRow ⟨StorageType.pvc, true, true, true, true⟩
        ⟨true, ⟨[⟨"Complete", "True"⟩], 0, 1, 0⟩, false, 0⟩
        (insertedRow "j1" "j1short" "acme")).1.result_location.isSome = true ↔
      (sweepRow ⟨StorageType.pvc, true, true, true, true⟩
        ⟨true, ⟨[⟨"Complete", "True"⟩], 0, 1, 0⟩, false, 0⟩
        (insertedRow "j1" "j1short" "acme")).1.status = Status.SUCCEEDED :=
  (C2_result_location_amended ⟨StorageType.pvc, true, true, true, true⟩
      ⟨true, ⟨[⟨"Complete", "True"⟩], 0, 1, 0⟩, false, 0⟩
      (insertedRow "j1" "j1short" "acme") (by simp [insertedRow])).1

theorem string_length_append (a b : String) : (a ++ b).length = a.length + b.length :=
  String.length_append a b

theorem cleanup_name_ne_upload (s : String) : "cleanup-" ++ s ≠ "upload-" ++ s := by
  intro h
  have hlen := congrArg String.length h
  rw [string_length_append, string_length_append] at hlen
  have h1 : ("cleanup-" : String).length = 8 := rfl
  have h2 : ("upload-" : String).length = 7 := rfl
  rw [h1, h2] at hlen
  omega

theorem cleanup_not_in_uploadActions (env : SweepEnv) (s : String) :
    RAction.createWorkload ("cleanup-" ++ s) ∉ (upload_results_from_pvc env s).1 := by
  unfold upload_results_from_pvc
  split_ifs <;> simp [cleanup_name_ne_upload s]

theorem pass2_actions_cases (env : SweepEnv) (r : JobRow) :
    (pass2 env r).2 = [] ∨ (pass2 env r).2 = (upload_results_from_pvc env r.shortId).1 := by
  unfold pass2
  split_ifs <;> simp

theorem pass3_shortId (env : SweepEnv) (obs : RowObs) (r : JobRow) :
    (pass3 env obs r).1.shortId = r.shortId := by
  unfold pass3; split_ifs <;> rfl

theorem pass4_actions_cases (env : SweepEnv) (obs : RowObs) (x : JobRow) :
    (pass4 env obs x).2 = [] ∨
    (pass4 env obs x).2 = [RAction.scheduleChunkCleanup x.shortId] ∨
    (pass4 env obs x).2 = (upload_results_from_pvc env x.shortId).1
        ++ [RAction.scheduleChunkCleanup x.shortId] := by
  unfold pass4
  split_ifs <;> simp_all <;> split_ifs <;> simp_all

theorem cleanup_not_in_pass4 (env : SweepEnv) (obs : RowObs) (x : JobRow) :
    RAction.createWorkload ("cleanup-" ++ x.shortId) ∉ (pass4 env obs x).2 := by
  rcases pass4_actions_cases env obs x with hc | hc | hc <;> rw [hc] <;>
    simp [cleanup_not_in_uploadActions env x.shortId]

theorem pass3_cleanup_guard (env : SweepEnv) (obs : RowObs) (x : JobRow)
    (hm : RAction.createWorkload ("cleanup-" ++ x.shortId) ∈ (pass3 env obs x).2) :
    obs.uploadFound = true ∧ obs.uploadSucceeded ≠ 0 ∧
      x.status = Status.SUCCEEDED ∧ env.storage.isCloud = true := by
  unfold pass3 at hm
  split_ifs at hm with h1 h2 h3
  · exact ⟨h2.1, h2.2, h1.1, h3⟩
  · simp at hm
  · simp at hm
  · simp at hm

/-- C7: in any reconciler sweep, the `cleanup-<shortId>` volume-cleanup
side-workload is emitted only by the upload-completion pass, and only when
that pass has just observed the `upload-<shortId>` side-workload to report
success for a SUCCEEDED row on an object-store backend — never before
that observation. -/
theorem C7_cleanup_after_upload (env : SweepEnv) (obs : RowObs) (r : JobRow)
    (hmem : RAction.createWorkload ("cleanup-" ++ r.shortId) ∈ (sweepRow env obs r).2) :
    obs.uploadFound = true ∧ obs.uploadSucceeded ≠ 0 ∧
      r.status = Status.SUCCEEDED ∧ env.storage.isCloud = true := by
  have e1 : (pass1 r).shortId = r.shortId := (pass1_fields r).2.2.1
  have e2 : (pass2 env (pass1 r)).1.shortId = r.shortId := by
    rw [pass2_shortId, e1]
  have e3 : (pass3 env obs (pass2 env (pass1 r)).1).1.shortId = r.shortId := by
    rw [pass3_shortId, e2]
  have est : (pass2 env (pass1 r)).1.status = r.status := by
    rw [pass2_status, pass1_status]
  unfold sweepRow at hmem
  simp only [List.mem_append] at hmem
  rcases hmem with (hm | hm) | hm
  · rcases pass2_actions_cases env (pass1 r) with hc | hc
    · rw [hc] at hm
      simp at hm
    · rw [hc, e1] at hm
      exact absurd hm (cleanup_not_in_uploadActions env r.shortId)
  · rw [← e2] at hm
    obtain ⟨hu, hs, hstat, hcl⟩ := pass3_cleanup_guard env obs _ hm
    rw [est] at hstat
    exact ⟨hu, hs, hstat, hcl⟩
  · rw [← e3] at hm
    exact absurd hm (cleanup_not_in_pass4 env obs _)

theorem C7_cleanup_after_upload_witness :
    ({ simFound := true, sim := ⟨[], 0, 0, 0⟩, uploadFound := true,
        uploadSucceeded := 1 } : RowObs).uploadFound = true ∧
    ({ simFound := true, sim := ⟨[], 0, 0, 0⟩, uploadFound := true,
        uploadSucceeded := 1 } : RowObs).uploadSucceeded ≠ 0 ∧
    ({ status := Status.SUCCEEDED, started_at := true, finished_at := true,
        result_location := some "sumo-k8-results/acme/j1/", result_files := false,
        jobId := "j1", shortId := "j1short", ns := "acme" } : JobRow).status
      = Status.SUCCEEDED ∧
    ({ storage := StorageType.s3, uploadScriptCMOk := true, uploadJobOk := true,
        cleanupScriptCMOk := true, cleanupJobOk := true } : SweepEnv).storage.isCloud
      = true :=
  C7_cleanup_after_upload
    { storage := StorageType.s3, uploadScriptCMOk := true, uploadJobOk := true,
      cleanupScriptCMOk := true, cleanupJobOk := true }
    { simFound := true, sim := ⟨[], 0, 0, 0⟩, uploadFound := true, uploadSucceeded := 1 }
    { status := Status.SUCCEEDED, started_at := true, finished_at := true,
      result_location := some "sumo-k8-results/acme/j1/", result_files := false,
      jobId := "j1", shortId := "j1short", ns := "acme" }
    (by decide)

theorem digitChar_toNat : ∀ d < 10, (digitChar d).toNat = 48 + d := by decide

theorem decVal_natStrAux : ∀ fuel n, n < fuel → decVal (natStrAux fuel n) = n
  | 0, n, h => absurd h (Nat.not_lt_zero n)
  | fuel + 1, n, h => by
      unfold natStrAux
      by_cases h10 : n < 10
      · rw [if_pos h10]
        unfold decVal
        simp [List.foldl, digitChar_toNat n h10]
      · rw [if_neg h10]
        have ih := decVal_natStrAux fuel (n / 10) (by omega)
        unfold decVal at ih ⊢
        rw [List.foldl_append, ih]
        simp [List.foldl, digitChar_toNat (n % 10) (by omega)]
        omega

theorem decVal_natStr (n : Nat) : decVal (natStr n) = n :=
  decVal_natStrAux (n + 1) n (Nat.lt_succ_self n)

theorem numStr_inj {a b : Nat} (h : numStr a = numStr b) : a = b := by
  have h2 := congrArg (fun s : String => decVal s.data) h
  simpa [numStr, decVal_natStr] using h2

theorem numStr_gi_inj {a b : Nat} (h : numStr a ++ "Gi" = numStr b ++ "Gi") : a = b := by
  apply numStr_inj
  have hd := congrArg String.data h
  rw [String.data_append, String.data_append] at hd
  exact congrArg String.mk (List.append_cancel_right hd)

theorem quotaStep_fields (t : Tenant) (o : Option QuotaSpec) :
    (quotaStep t o).2.requestsCpu = numStr t.max_cpu ∧
      (quotaStep t o).2.requestsMemory = numStr t.max_memory_gi ++ "Gi" := by
  cases o with
  | none => exact ⟨rfl, rfl⟩
  | some q =>
      simp only [quotaStep]
      split_ifs with h
      · exact ⟨rfl, rfl⟩
      · push_neg at h
        exact ⟨h.1, h.2⟩

theorem limitRangeStep_fields (t : Tenant) (o : Option LimitRangeItem) :
    (limitRangeStep t o).2.maxCpu = numStr t.max_cpu ∧
      (limitRangeStep t o).2.maxMemory = numStr t.max_memory_gi ++ "Gi" := by
  cases o with
  | none => exact ⟨rfl, rfl⟩
  | some l =>
      simp only [limitRangeStep]
      split_ifs with h
      · exact ⟨rfl, rfl⟩
      · push_neg at h
        exact ⟨h.1, h.2⟩

theorem quotaStep_no_write (t : Tenant) (q : QuotaSpec)
    (h1 : q.requestsCpu = numStr t.max_cpu)
    (h2 : q.requestsMemory = numStr t.max_memory_gi ++ "Gi") :
    quotaStep t (some q) = ([], q) := by
  simp only [quotaStep]
  rw [if_neg (by push_neg; exact ⟨h1, h2⟩)]

theorem limitRangeStep_no_write (t : Tenant) (l : LimitRangeItem)
    (h1 : l.maxCpu = numStr t.max_cpu)
    (h2 : l.maxMemory = numStr t.max_memory_gi ++ "Gi") :
    limitRangeStep t (some l) = ([], l) := by
  simp only [limitRangeStep]
  rw [if_neg (by push_neg; exact ⟨h1, h2⟩)]

theorem quotaStep_patch (t : Tenant) (q : QuotaSpec)
    (h : q.requestsCpu ≠ numStr t.max_cpu ∨
      q.requestsMemory ≠ numStr t.max_memory_gi ++ "Gi") :
    quotaStep t (some q) = ([PWrite.patchQuota (desiredQuota t)], desiredQuota t) := by
  simp only [quotaStep]
  rw [if_pos h]

theorem limitRangeStep_patch (t : Tenant) (l : LimitRangeItem)
    (h : l.maxCpu ≠ numStr t.max_cpu ∨
      l.maxMemory ≠ numStr t.max_memory_gi ++ "Gi") :
    limitRangeStep t (some l) =
      ([PWrite.patchLimitRange (desiredLimitRange t)], desiredLimitRange t) := by
  simp only [limitRangeStep]
  rw [if_pos h]

theorem ensure_on_settled_state (t : Tenant) (q : QuotaSpec) (l : LimitRangeItem) :
    ensure_tenant_namespace t ⟨true, some q, some l, true⟩ =
      ((quotaStep t (some q)).1 ++ (limitRangeStep t (some l)).1,
        ⟨true, some (quotaStep t (some q)).2, some (limitRangeStep t (some l)).2, true⟩) := by
  unfold ensure_tenant_namespace
  simp

/-- C6 as stated is false on the code: after provisioning tenant limits
(4 cpu, 8 Gi, 10 jobs), a second call with only `max_concurrent_jobs`
changed to 5 performs zero orchestrator writes — the quota drift check
compares only the `requests.cpu` and `requests.memory` strings and never
looks at `pods`. -/
theorem C6_provisioner_cex :
    (ensure_tenant_namespace ⟨"acme", 4, 8, 5⟩
        (ensure_tenant_namespace ⟨"acme", 4, 8, 10⟩ ⟨false, none, none, false⟩).2).1
      = [] ∧
    (desiredQuota ⟨"acme", 4, 8, 5⟩).pods ≠ (desiredQuota ⟨"acme", 4, 8, 10⟩).pods := by
  refine ⟨by decide, by decide⟩

/-- C6 amended: calling the provisioner twice with an unchanged tenant row
performs zero orchestrator writes on the second call; if `max_cpu` or
`max_memory_gi` changed between the calls, the second call patches the
quota and limit range in place (no create); a change to
`max_concurrent_jobs` alone performs no write, since the drift check only
compares the cpu and memory strings. -/
theorem C6_provisioner_amended (t t' : Tenant) (st : ClusterNS)
    (hdrift : t.max_cpu ≠ t'.max_cpu ∨ t.max_memory_gi ≠ t'.max_memory_gi) :
    (ensure_tenant_namespace t (ensure_tenant_namespace t st).2).1 = [] ∧
    (ensure_tenant_namespace t' (ensure_tenant_namespace t st).2).1 =
      [PWrite.patchQuota (desiredQuota t'),
        PWrite.patchLimitRange (desiredLimitRange t')] := by
  obtain ⟨hqc, hqm⟩ := quotaStep_fields t st.quota
  obtain ⟨hlc, hlm⟩ := limitRangeStep_fields t st.limits
  have hst1 : (ensure_tenant_namespace t st).2 =
      ⟨true, some (quotaStep t st.quota).2, some (limitRangeStep t st.limits).2, true⟩ :=
    rfl
  constructor
  · rw [hst1, ensure_on_settled_state,
      quotaStep_no_write t _ hqc hqm, limitRangeStep_no_write t _ hlc hlm]
    rfl
  · have hq' : (quotaStep t st.quota).2.requestsCpu ≠ numStr t'.max_cpu ∨
        (quotaStep t st.quota).2.requestsMemory ≠ numStr t'.max_memory_gi ++ "Gi" := by
      rcases hdrift with hd | hd
      · exact Or.inl (by rw [hqc]; exact fun he => hd (numStr_inj he))
      · exact Or.inr (by rw [hqm]; exact fun he => hd (numStr_gi_inj he))
    have hl' : (limitRangeStep t st.limits).2.maxCpu ≠ numStr t'.max_cpu ∨
        (limitRangeStep t st.limits).2.maxMemory ≠ numStr t'.max_memory_gi ++ "Gi" := by
      rcases hdrift with hd | hd
      · exact Or.inl (by rw [hlc]; exact fun he => hd (numStr_inj he))
      · exact Or.inr (by rw [hlm]; exact fun he => hd (numStr_gi_inj he))
    rw [hst1, ensure_on_settled_state,
      quotaStep_patch t' _ hq', limitRangeStep_patch t' _ hl']
    rfl

theorem C6_provisioner_amended_witness :
    (ensure_tenant_namespace ⟨"acme", 5, 8, 10⟩
        (ensure_tenant_namespace ⟨"acme", 4, 8, 10⟩ ⟨false, none, none, false⟩).2).1 =
      [PWrite.patchQuota (desiredQuota ⟨"acme", 5, 8, 10⟩),
        PWrite.patchLimitRange (desiredLimitRange ⟨"acme", 5, 8, 10⟩)] :=
  (C6_provisioner_amended ⟨"acme", 4, 8, 10⟩ ⟨"acme", 5, 8, 10⟩
      ⟨false, none, none, false⟩ (Or.inl (by decide))).2

end SumoK8

